import Mathlib

/-!
Verification of the gitbook_downloader repository.

Shallow embedding of the strategy-fallback orchestrator
(gitbook_multi_downloader.py), the scraping strategy with navigation
discovery and content extraction (strategies/scraping_strategy.py), and
the content consolidator (utils/content_consolidator.py).

Python strings are embedded as lists of characters (`Str`); Python string
methods used by the source are given as executable definitions below.
Network and filesystem effects are made explicit: a fetch result is a
value of an outcome type, the parsed HTML document delivered by
BeautifulSoup is a `Node` tree, and file writes / temp-dir cleanup are
recorded as boolean effects of the modelled `download` run.
-/

/-- Python strings are modelled as lists of characters. -/
abbrev Str := List Char

/-- Character class of the Python whitespace characters recognised by
`str.strip`, `str.split()` and the regex class backslash-s. -/
def pyIsSpace (c : Char) : Bool :=
  c = ' ' || c = '\t' || c = '\n' || c = '\x0d' || c = '\x0b' || c = '\x0c'

/-- Python `str.lstrip()` (no arguments): drop leading whitespace. -/
def pyLStrip (s : Str) : Str := s.dropWhile pyIsSpace

/-- Python `str.rstrip()` (no arguments): drop trailing whitespace. -/
def pyRStrip (s : Str) : Str := (s.reverse.dropWhile pyIsSpace).reverse

/-- Python `str.strip()` (no arguments): drop whitespace at both ends. -/
def pyStrip (s : Str) : Str := pyRStrip (pyLStrip s)

/-- Python `str.lower()` (the source only lowercases ASCII titles/urls). -/
def pyLower (s : Str) : Str := s.map Char.toLower

/-- Boolean prefix test on character lists. -/
def isPrefixL : Str → Str → Bool
  | [], _ => true
  | _ :: _, [] => false
  | a :: as, b :: bs => a = b && isPrefixL as bs

/-- Python substring membership `needle in hay`. -/
def containsSub (hay needle : Str) : Bool :=
  if isPrefixL needle hay then true
  else
    match hay with
    | [] => false
    | _ :: rest => containsSub rest needle

/-- Python `str.endswith`. -/
def endsWithL (s suffix : Str) : Bool := isPrefixL suffix.reverse s.reverse

/-- Python `str.split(sep)` for a one-character separator: keeps empty
fields, always returns at least one field. -/
def pySplitChar (sep : Char) : Str → List Str
  | [] => [[]]
  | c :: cs =>
    let rest := pySplitChar sep cs
    if c = sep then [] :: rest
    else
      match rest with
      | [] => [[c]]
      | f :: fs => (c :: f) :: fs

/-- Python `sep.join(parts)` for a one-character separator. -/
def pyJoinChar (sep : Char) : List Str → Str
  | [] => []
  | [s] => s
  | s :: rest => s ++ sep :: pyJoinChar sep rest

/-- Python `str.split()` with no argument: split on whitespace runs,
dropping empty fields. -/
def pySplitWS (s : Str) : List Str :=
  go [] s
where
  go (cur : Str) : Str → List Str
    | [] => if cur = [] then [] else [cur.reverse]
    | c :: cs =>
      if pyIsSpace c then
        if cur = [] then go [] cs else cur.reverse :: go [] cs
      else go (c :: cur) cs

/-- Python `str.replace(pat, rep)` replacing each occurrence left to
right; the fuel argument (instantiated with the length of the string)
keeps the recursion structural. -/
def pyReplaceGo (pat rep : Str) : Nat → Str → Str
  | _, [] => []
  | 0, s => s
  | fuel + 1, c :: cs =>
    if pat ≠ [] && isPrefixL pat (c :: cs) then
      rep ++ pyReplaceGo pat rep fuel (List.drop (pat.length - 1) cs)
    else c :: pyReplaceGo pat rep fuel cs

/-- Python `str.replace(pat, rep)` for non-empty `pat`. -/
def pyReplace (s pat rep : Str) : Str := pyReplaceGo pat rep s.length s

/-- Python `str.title()`: an alphabetic character is uppercased when the
previous character is not alphabetic and lowercased otherwise. -/
def pyTitle (s : Str) : Str :=
  go false s
where
  go : Bool → Str → Str
    | _, [] => []
    | prevAlpha, c :: cs =>
      if c.isAlpha then
        (if prevAlpha then c.toLower else c.toUpper) :: go true cs
      else c :: go false cs

/-- Value of a maximal run of decimal digits, accumulator style. -/
def digitRunVal (acc : Nat) : Str → Nat
  | [] => acc
  | c :: cs => if c.isDigit then digitRunVal (acc * 10 + (c.toNat - 48)) cs else acc

/-- Python `re.search` for one-or-more digits followed by `int(...)` on
the match: value of the leftmost maximal digit run, if any. -/
def firstNumRun : Str → Option Nat
  | [] => none
  | c :: cs => if c.isDigit then some (digitRunVal (c.toNat - 48) cs) else firstNumRun cs

/-- Decimal rendering of a natural number, as Python `str(n)` / f-string
interpolation of an int. -/
def natToStr (n : Nat) : Str := (Nat.repr n).data

/-- Python `re.sub` of a run of at least `thresh` newlines by exactly
`keep` newlines, applied to the whole string (used with 4→3 by the
consolidator and 3→2 by the scraper). The `pending` accumulator counts
the newline run currently being read. -/
def collapseNLGo (thresh keep : Nat) (pending : Nat) : Str → Str
  | [] => List.replicate (if thresh ≤ pending then keep else pending) '\n'
  | c :: cs =>
    if c = '\n' then collapseNLGo thresh keep (pending + 1) cs
    else
      List.replicate (if thresh ≤ pending then keep else pending) '\n' ++
        c :: collapseNLGo thresh keep 0 cs

/-- Collapse newline runs of length at least `thresh` down to `keep`. -/
def collapseNL (thresh keep : Nat) (s : Str) : Str := collapseNLGo thresh keep 0 s

/-- Position of the first occurrence of `needle` in `hay`, if any. -/
def findSub (hay needle : Str) : Option Nat :=
  if isPrefixL needle hay then some 0
  else
    match hay with
    | [] => none
    | _ :: rest => (findSub rest needle).map (· + 1)

/-- Network-location part of a URL as Python `urlparse(url).netloc` for
the URL shapes the source handles: the text between the first scheme
separator (or a leading double slash) and the next slash, question mark
or hash; empty when the URL has neither. -/
def pyNetloc (url : Str) : Str :=
  match findSub url "://".data with
  | some i => (url.drop (i + 3)).takeWhile fun c => c ≠ '/' && c ≠ '?' && c ≠ '#'
  | none =>
    if isPrefixL "//".data url then
      (url.drop 2).takeWhile fun c => c ≠ '/' && c ≠ '?' && c ≠ '#'
    else []

/-- Scheme of a URL (the part before the first colon) when the URL starts
with a letter followed by letters, digits, plus, minus or dot and then a
colon, as Python urlparse recognises schemes. -/
def pySchemeOf (url : Str) : Option Str :=
  match url with
  | [] => none
  | c :: _ =>
    if c.isAlpha then
      match findSub url ":".data with
      | none => none
      | some i =>
        let candidate := url.take i
        if candidate.all fun ch => ch.isAlpha || ch.isDigit || ch = '+' || ch = '-' || ch = '.' then
          some candidate
        else none
    else none

/-- Prefix of an absolute URL up to and including the last slash of its
path (helper for relative reference resolution). -/
def pyUrlDir (base : Str) : Str :=
  match findSub base "://".data with
  | some i =>
    let afterScheme := base.drop (i + 3)
    let pathPart := afterScheme.dropWhile fun c => c ≠ '/'
    if pathPart = [] then base ++ "/".data
    else
      match findSub pathPart.reverse "/".data with
      | some j => base.take (base.length - j)
      | none => base ++ "/".data
  | none => base

/-- Python `urllib.parse.urljoin(base, rel)` for the reference shapes the
scraper meets: empty references, absolute references with a scheme,
scheme-relative and host-relative references, fragments, and plain
relative paths (without dot-segment normalisation, which the source never
relies on). -/
def pyUrljoin (base rel : Str) : Str :=
  if rel = [] then base
  else if (findSub rel "://".data).isSome then rel
  else if pySchemeOf rel ≠ none && pySchemeOf rel ≠ pySchemeOf base then rel
  else if isPrefixL "//".data rel then
    (match pySchemeOf base with
     | some s => s ++ ":".data ++ rel
     | none => rel)
  else if isPrefixL "/".data rel then
    (match findSub base "://".data with
     | some i =>
       let afterScheme := base.drop (i + 3)
       base.take (i + 3) ++ afterScheme.takeWhile (fun c => c ≠ '/' && c ≠ '?' && c ≠ '#') ++ rel
     | none => rel)
  else if isPrefixL "#".data rel then
    (base.takeWhile fun c => c ≠ '#') ++ rel
  else pyUrlDir base ++ rel

/-!
HTML document model.

BeautifulSoup documents are embedded as trees of element and text nodes;
a parsed document is the list of its top-level nodes. The CSS selectors
appearing in scraping_strategy.py are of three shapes — a tag name, a
class token, an exact attribute value — optionally used as the ancestor
part of a descendant selector whose target is an anchor with an href
attribute; the selector model covers exactly those shapes.
-/

/-- One node of a parsed HTML document. -/
inductive Node where
  | text (s : Str)
  | elem (name : Str) (attrs : List (Str × Str)) (children : List Node)

/-- Attribute lookup on an element's attribute list, as `tag.get(key)`. -/
def getAttr (attrs : List (Str × Str)) (key : Str) : Option Str :=
  match attrs.find? (fun kv => kv.fst = key) with
  | some kv => some kv.snd
  | none => none

/-- Concatenated text of a node, as BeautifulSoup `get_text()`. -/
def getTextN : Node → Str
  | .text s => s
  | .elem _ _ cs => goList cs
where
  goList : List Node → Str
    | [] => []
    | c :: cs => getTextN c ++ goList cs

/-- Concatenated text of a node list (the whole-document `get_text()`). -/
def getTextNs (ns : List Node) : Str := getTextN.goList ns

/-- Simple CSS selector: tag name, class token, or exact attribute value. -/
inductive CSel where
  | tagSel (name : Str)
  | clsSel (token : Str)
  | attrSel (key value : Str)

/-- Whitespace-separated tokens of an element's class attribute. -/
def classTokens (attrs : List (Str × Str)) : List Str :=
  match getAttr attrs "class".data with
  | some v => pySplitWS v
  | none => []

/-- Does an element match a simple selector (text nodes never match). -/
def matchesSel (sel : CSel) : Node → Bool
  | .text _ => false
  | .elem name attrs _ =>
    match sel with
    | .tagSel n => name = n
    | .clsSel tok => (classTokens attrs).contains tok
    | .attrSel k v => getAttr attrs k = some v

/-- Elements removed by `_extract_main_content` before content selection:
the `unwanted_selectors` list of scraping_strategy.py. -/
def unwantedSelectors : List CSel :=
  [ .tagSel "nav".data, .tagSel "header".data, .tagSel "footer".data, .tagSel "aside".data,
    .clsSel "sidebar".data, .clsSel "navigation".data, .clsSel "nav".data,
    .clsSel "header".data, .clsSel "footer".data,
    .clsSel "breadcrumb".data, .clsSel "breadcrumbs".data, .clsSel "page-edit-link".data,
    .tagSel "script".data, .tagSel "style".data, .tagSel "noscript".data,
    .clsSel "search".data, .clsSel "share".data, .clsSel "comments".data ]

/-- Does an element match any of the unwanted selectors. -/
def matchesAnyUnwanted (n : Node) : Bool := unwantedSelectors.any fun sel => matchesSel sel n

/-- Removal of all elements matching an unwanted selector, at any depth,
as the `decompose()` loops of `_extract_main_content`: decomposing per
selector in sequence removes exactly the nodes with a matching
ancestor-or-self, since matching depends only on the node itself. -/
def removeUnwantedN : Node → Option Node
  | .text s => some (.text s)
  | .elem name attrs cs =>
    if matchesAnyUnwanted (.elem name attrs cs) then none
    else some (.elem name attrs (goList cs))
where
  goList : List Node → List Node
    | [] => []
    | c :: cs =>
      match removeUnwantedN c with
      | some c2 => c2 :: goList cs
      | none => goList cs

/-- Unwanted-element removal over a whole document. -/
def removeUnwanted (doc : List Node) : List Node := removeUnwantedN.goList doc

/-- First element matching a selector in document (pre-)order, as
BeautifulSoup `select_one`. -/
def selectFirstN (sel : CSel) : Node → Option Node
  | .text _ => none
  | .elem name attrs cs =>
    if matchesSel sel (.elem name attrs cs) then some (.elem name attrs cs)
    else goList sel cs
where
  goList (sel : CSel) : List Node → Option Node
    | [] => none
    | c :: cs =>
      match selectFirstN sel c with
      | some x => some x
      | none => goList sel cs

/-- `select_one` over a whole document. -/
def selectFirst (sel : CSel) (doc : List Node) : Option Node := selectFirstN.goList sel doc

/-- First `body` element of the document, as `soup.find('body')`. -/
def findBody (doc : List Node) : Option Node := selectFirst (.tagSel "body".data) doc

/-!
Structural-to-text rendering: `ScrapingStrategy._html_to_text`.

`process_element` appends lines to `text_lines`; it is embedded as a
function returning the list of appended lines. Text nodes are only seen
through the catch-all branch that iterates children of a non-special
element, exactly as in the source.
-/

/-- Heading level from a tag name `h1`..`h6`, as `int(elem.name[1])`. -/
def hLevel : Str → Nat
  | ['h', c] => c.toNat - 48
  | _ => 0

/-- Tag names treated as headings by `_html_to_text`. -/
def headingNames : List Str :=
  ["h1".data, "h2".data, "h3".data, "h4".data, "h5".data, "h6".data]

/-- Direct `li` element children of a list element, as
`elem.find_all('li', recursive=False)`. -/
def directLis (cs : List Node) : List Node :=
  cs.filter fun c =>
    match c with
    | .elem name _ _ => name = "li".data
    | .text _ => false

/-- Backtick character (the code-span delimiter emitted by the source). -/
def btick : Char := Char.ofNat 96

/-- Lines appended by `process_element` for one element. -/
def emitElem : Node → List Str
  | .text _ => []
  | .elem name _attrs cs =>
    if headingNames.contains name then
      [List.replicate (hLevel name) '#' ++ " ".data ++ pyStrip (getTextNs cs), []]
    else if name = "p".data then
      [pyStrip (getTextNs cs), []]
    else if name = "ul".data || name = "ol".data then
      ((directLis cs).map fun li => "- ".data ++ pyStrip (getTextN li)) ++ [[]]
    else if name = "code".data then
      [btick :: pyStrip (getTextNs cs) ++ [btick]]
    else if name = "pre".data then
      ["```".data, pyStrip (getTextNs cs), "```".data, []]
    else goChildren cs
where
  goChildren : List Node → List Str
    | [] => []
    | .text s :: rest =>
      (if pyStrip s ≠ [] then [pyStrip s] else []) ++ goChildren rest
    | .elem n a c :: rest => emitElem (.elem n a c) ++ goChildren rest

/-- Lines appended by the catch-all child iteration of `process_element`
for a list of nodes. -/
def emitNodes (ns : List Node) : List Str := emitElem.goChildren ns

/-- `ScrapingStrategy._html_to_text`: join the emitted lines, collapse
runs of three or more newlines to two, and strip. -/
def htmlToText (e : Node) : Str :=
  pyStrip (collapseNL 3 2 (pyJoinChar '\n' (emitElem e)))

/-- Main-content selectors of `_extract_main_content`, in source order. -/
def contentSelectors : List CSel :=
  [ .attrSel "data-testid".data "page-content".data,
    .clsSel "page-content".data,
    .clsSel "content".data,
    .tagSel "main".data,
    .tagSel "article".data,
    .clsSel "post-content".data,
    .clsSel "entry-content".data ]

/-- First selector of `content_selectors` with a match, in source order:
the selection loop of `_extract_main_content`. -/
def firstContentMatch (soup : List Node) : List CSel → Option Node
  | [] => none
  | sel :: rest =>
    match selectFirst sel soup with
    | some e => some e
    | none => firstContentMatch soup rest

/-- `ScrapingStrategy._extract_main_content` on a parsed document: strip
unwanted elements, return the rendering of the first matching content
region, else of the body, else the raw remaining document text. -/
def extractMainContent (doc : List Node) : Str :=
  let soup := removeUnwanted doc
  match firstContentMatch soup contentSelectors with
  | some e => htmlToText e
  | none =>
    match findBody soup with
    | some b => htmlToText b
    | none => getTextNs soup

/-!
Navigation discovery and the fetch pipeline: `ScrapingStrategy`.
-/

/-- Navigation link discovered before fetching: `{'url': ..., 'title': ...}`. -/
structure NavLink where
  url : Str
  title : Str
deriving DecidableEq

/-- Extracted page record as built by the strategies; `path` is the
github-strategy field, empty when absent (a missing dictionary key and an
empty string are both falsy where the source tests these fields). The
transient `html` field of the scraped page dictionary is not consumed by
the consolidator and is not modelled. -/
structure Page where
  title : Str
  url : Str
  path : Str
  content : Str
  source : Str
deriving DecidableEq

/-- Substring skip patterns of `_is_valid_page_url` (each of these regex
patterns is a literal substring match). -/
def skipSubstrings : List Str :=
  [ "/search".data, "/login".data, "/logout".data, "/edit".data,
    "/admin".data, "/api/".data, "/assets/".data, "/static/".data,
    "mailto:".data, "tel:".data, "javascript:".data ]

/-- Suffix skip patterns of `_is_valid_page_url` (the two anchored
extension alternation regexes). -/
def skipSuffixes : List Str :=
  [ ".css".data, ".js".data, ".json".data, ".xml".data, ".rss".data, ".txt".data,
    ".jpg".data, ".png".data, ".gif".data, ".svg".data, ".ico".data, ".pdf".data ]

/-- `ScrapingStrategy._is_valid_page_url`. -/
def isValidPageUrl (url baseDomain : Str) : Bool :=
  if url = [] || isPrefixL "#".data url then false
  else if pyNetloc url ≠ baseDomain then false
  else
    let urlLower := pyLower url
    if skipSubstrings.any (fun pat => containsSub urlLower pat) then false
    else if skipSuffixes.any (fun pat => endsWithL urlLower pat) then false
    else true

/-- Navigation selectors of `ScrapingStrategy.nav_selectors`, in source
order; each source selector is a descendant selector whose target is
`a[href]`, so only the ancestor part varies and is listed here. -/
def navSelectors : List CSel :=
  [ .attrSel "data-testid".data "sidebar".data,
    .attrSel "data-testid".data "navigation".data,
    .clsSel "sidebar".data,
    .clsSel "navigation".data,
    .clsSel "book-summary".data,
    .clsSel "summary".data,
    .tagSel "nav".data,
    .clsSel "nav".data,
    .clsSel "toc".data,
    .tagSel "aside".data ]

/-- Anchors with an `href` attribute that have a proper ancestor matching
the given ancestor selector, in document order: `soup.select(sel + ' a[href]')`.
The `inside` flag records whether a matching ancestor has been passed. -/
def collectAnchorsN (sel : CSel) (inside : Bool) : Node → List Node
  | .text _ => []
  | .elem name attrs cs =>
    (if inside && name = "a".data && (getAttr attrs "href".data).isSome then
      [Node.elem name attrs cs]
    else []) ++ goList sel (inside || matchesSel sel (.elem name attrs cs)) cs
where
  goList (sel : CSel) (inside : Bool) : List Node → List Node
    | [] => []
    | c :: rest => collectAnchorsN sel inside c ++ goList sel inside rest

/-- Descendant-anchor selection over a whole document. -/
def collectAnchors (sel : CSel) (doc : List Node) : List Node :=
  collectAnchorsN.goList sel false doc

/-- The body of the inner anchor loop of `_discover_navigation`: read
href and visible text, skip when either is empty, resolve the absolute
URL, and retain the link when the URL is valid, truncating the title to
100 characters. -/
def mkNavLink (pageUrl baseDomain : Str) (anchor : Node) : Option NavLink :=
  match anchor with
  | .text _ => none
  | .elem _ attrs cs =>
    let href := (getAttr attrs "href".data).getD []
    let text := pyStrip (getTextNs cs)
    if href = [] || text = [] then none
    else
      let absUrl := pyUrljoin pageUrl href
      if isValidPageUrl absUrl baseDomain then some ⟨absUrl, text.take 100⟩
      else none

/-- Links retained from one navigation selector of the cascade. -/
def retainedLinks (doc : List Node) (pageUrl baseDomain : Str) (sel : CSel) : List NavLink :=
  (collectAnchors sel doc).filterMap (mkNavLink pageUrl baseDomain)

/-- The selector cascade of `_discover_navigation`: process selectors in
order, appending each selector's retained links to the accumulated list,
and break out of the loop as soon as the accumulated list holds more than
5 links. -/
def discoverLoop (doc : List Node) (pageUrl baseDomain : Str) :
    List CSel → List NavLink → List NavLink
  | [], links => links
  | sel :: rest, links =>
    let links2 := links ++ retainedLinks doc pageUrl baseDomain sel
    if 5 < links2.length then links2
    else discoverLoop doc pageUrl baseDomain rest links2

/-- Duplicate removal of `_discover_navigation`: keep the first
occurrence of each URL, preserving order (`seen_urls` accumulator). -/
def dedupeLinks (seen : List Str) : List NavLink → List NavLink
  | [] => []
  | l :: rest =>
    if seen.contains l.url then dedupeLinks seen rest
    else l :: dedupeLinks (l.url :: seen) rest

/-- `ScrapingStrategy._discover_navigation` on an already fetched and
parsed root page (a non-200 status, transport or parse error makes the
source return an empty list before this point). -/
def discoverNavigation (doc : List Node) (pageUrl : Str) : List NavLink :=
  dedupeLinks [] (discoverLoop doc pageUrl (pyNetloc pageUrl) navSelectors [])

/-- Outcome of fetching one navigation link: a failure (non-200 status,
transport or parse error — the task contributes nothing) or a parsed
document. -/
inductive FetchOutcome where
  | fail
  | ok (doc : List Node)

/-- The per-link task body of `_download_pages`: on success, extract the
main content and keep the page only when the content is non-empty and its
stripped length exceeds 50 characters. -/
def pageOfFetch (link : NavLink) (outcome : FetchOutcome) : Option Page :=
  match outcome with
  | .fail => none
  | .ok doc =>
    let content := extractMainContent doc
    if content ≠ [] && 50 < (pyStrip content).length then
      some ⟨link.title, link.url, [], content, "scraping".data⟩
    else none

/-- `ScrapingStrategy._download_pages` over the fetch outcomes of the
navigation links. The source appends pages in task-completion order;
completion order is not guaranteed, so the embedding fixes link order —
the claims proved below only concern membership, which is
order-independent. -/
def downloadPages (links : List (NavLink × FetchOutcome)) : List Page :=
  links.filterMap fun lo => pageOfFetch lo.fst lo.snd

/-!
Content consolidation: `ContentConsolidator` (utils/content_consolidator.py).

The generation timestamp read by `datetime.now().strftime(...)` inside
`_generate_header` is an ambient input of the Python code; the embedding
makes it an explicit `now` argument. A `section_path` of None and an
empty section string are both falsy wherever the source tests the field,
so the section filter is embedded as a `Str` with the empty string for
absent.
-/

/-- Keyword group awarding 1000 points in `_sort_pages`. -/
def introWords : List Str :=
  ["readme".data, "introduction".data, "intro".data, "start".data, "index".data]

/-- Keyword group awarding 900 points in `_sort_pages`. -/
def overviewWords : List Str :=
  ["getting started".data, "quick start".data, "overview".data]

/-- Score of a page computed by the `sort_key` closure of
`ContentConsolidator._sort_pages`, before negation. -/
def sortScore (p : Page) : Int :=
  let title := pyLower p.title
  let url := pyLower p.url
  let s1 : Int := if introWords.any (fun w => containsSub title w) then 1000 else 0
  let s2 : Int := if overviewWords.any (fun w => containsSub title w) then 900 else 0
  let s3 : Int :=
    match firstNumRun title with
    | some n => 800 - (n : Int)
    | none => 0
  let s4 : Int := max 0 (100 - ((pySplitWS title).length : Int))
  let s5 : Int := max 0 (50 - ((pySplitChar '/' url).length : Int))
  s1 + s2 + s3 + s4 + s5

/-- The key returned by `sort_key`: the negated score (Python sorts
ascending by key, so negation yields descending score). -/
def sortKeyPage (p : Page) : Int := -sortScore p

/-- Stable insertion of a page into an already sorted list: the inserted
page (earlier in the original order) goes before pages of equal key. -/
def insertSorted (x : Page) : List Page → List Page
  | [] => [x]
  | y :: ys => if sortKeyPage y < sortKeyPage x then y :: insertSorted x ys else x :: y :: ys

/-- `ContentConsolidator._sort_pages`: Python `sorted(pages, key=sort_key)`
is the stable ascending sort by key, embedded as stable insertion sort
(stable sorts by a total preorder agree extensionally, so this is the
same function on lists). -/
def sortPages : List Page → List Page
  | [] => []
  | x :: xs => insertSorted x (sortPages xs)

/-- `ContentConsolidator._generate_header` with the clock reading `now`
passed explicitly. -/
def generateHeader (baseUrl sectionPath : Str) (pageCount : Nat) (now : Str) : Str :=
  let domain := pyNetloc baseUrl
  let title0 := pyTitle (pyReplace (pyReplace domain ".gitbook.io".data []) ".com".data [])
  let title :=
    if sectionPath ≠ [] then
      title0 ++ " - ".data ++ pyTitle (pyReplace sectionPath "/".data " / ".data)
    else title0
  let header :=
    "# ".data ++ title ++
    "\n\n*Downloaded with GitBook Multi-Strategy Downloader v4.0*\n\n**Source:** ".data ++
    baseUrl ++ "  \n**Pages:** ".data ++ natToStr pageCount ++
    "  \n**Downloaded:** ".data ++ now ++ "  \n".data
  let header :=
    if sectionPath ≠ [] then header ++ "**Section:** ".data ++ sectionPath ++ "  \n".data
    else header
  header ++ "\n---\n".data

/-- The `start_idx` loop of `_clean_content`: skip initial empty lines
and initial top-level `# ` heading lines (the index after the last such
heading), stopping at the first other non-blank line. -/
def startIdxGo (acc i : Nat) : List Str → Nat
  | [] => acc
  | l :: ls =>
    let s := pyStrip l
    if s = [] then startIdxGo acc (i + 1) ls
    else if isPrefixL "# ".data s then startIdxGo (i + 1) (i + 1) ls
    else acc

/-- Lines of a page content after the leading-trim of `_clean_content`. -/
def trimmedLines (content : Str) : List Str :=
  let lines := pySplitChar '\n' content
  let si := startIdxGo 0 0 lines
  if 0 < si then lines.drop si else lines

/-- The heading test `re.match` of one to five hash characters followed
by a whitespace character, anchored at the start of the line. -/
def matchHeading15 (line : Str) : Bool :=
  let n := (line.takeWhile (fun c => c = '#')).length
  1 ≤ n && n ≤ 5 &&
    (match line.drop n with
     | c :: _ => pyIsSpace c
     | [] => false)

/-- The heading-demotion step of `_clean_content`: prepend one hash to a
line matching the heading test, keep every other line unchanged. -/
def adjustLine (line : Str) : Str :=
  if matchHeading15 line then '#' :: line else line

/-- The string rebuilt by `_clean_content` right after heading demotion
(line 178 of the source), before whitespace normalisation. -/
def cleanCore (content : Str) : Str :=
  pyJoinChar '\n' ((trimmedLines content).map adjustLine)

/-- `ContentConsolidator._clean_content`. -/
def cleanContent (content : Str) : Str :=
  pyStrip (collapseNL 4 3 (cleanCore content))

/-- `ContentConsolidator._process_page_content` (the page number argument
is unused by the source body; the dead `clean_title` local is likewise
not consumed). Returns `none` for the Python `return None`. -/
def processPageContent (page : Page) : Option Str :=
  if page.content = [] || pyStrip page.content = [] then none
  else
    let sourceLine :=
      if page.url ≠ [] then ["*Source: ".data ++ page.url ++ "*\n".data]
      else if page.path ≠ [] then ["*Source: ".data ++ page.path ++ "*\n".data]
      else []
    some (pyJoinChar '\n' (sourceLine ++ [cleanContent page.content]))

/-- The per-line rewriting of a run of seven or more leading hash
characters down to six (the multiline regex of `_post_process_content`). -/
def fixHashLine (line : Str) : Str :=
  let n := (line.takeWhile (fun c => c = '#')).length
  if 7 ≤ n then List.replicate 6 '#' ++ line.drop n else line

/-- `ContentConsolidator._post_process_content`. -/
def postProcessContent (content : Str) : Str :=
  let c1 := collapseNL 4 3 content
  let c2 := pyJoinChar '\n' ((pySplitChar '\n' c1).map fixHashLine)
  pyRStrip c2 ++ "\n".data

/-- The page-section accumulation loop of `consolidate_pages`: a page
whose processed content is truthy contributes its section followed by a
separator part. -/
def pageSections : List Page → List Str
  | [] => []
  | p :: rest =>
    (match processPageContent p with
     | some s => if s ≠ [] then [s, "\n---\n".data] else []
     | none => []) ++ pageSections rest

/-- `ContentConsolidator.consolidate_pages` with the clock reading passed
explicitly. -/
def consolidatePages (pages : List Page) (baseUrl sectionPath now : Str) : Str :=
  if pages = [] then "# No Content Found\n\nNo pages were successfully downloaded.".data
  else
    let sorted := sortPages pages
    let parts := generateHeader baseUrl sectionPath pages.length now :: pageSections sorted
    postProcessContent (pyJoinChar '\n' parts)

/-!
The fallback orchestrator: `GitBookMultiDownloader.download`.

A strategy invocation either raises, returns None, or returns a page
list; the orchestrator run is embedded over the list of strategy names
paired with these outcomes. File writing and temp cleanup are recorded
as boolean effects. The embedding models the default configuration
without asset downloading (the asset module is an external collaborator;
its branch touches neither strategy selection, the recorded stats, nor
the failure path). The wall-clock statistics of the result dictionary
(duration, pages per second) are time measurements and are not modelled.
-/

/-- Outcome of one `strategy.extract_pages` invocation. -/
inductive StratOutcome where
  | raises
  | returns (pages : Option (List Page))
deriving DecidableEq

/-- The strategy loop of `download` (lines 84 to 105): an exception is
caught and the loop advances; a None or empty result advances; the first
non-empty page list is accepted with its strategy name. A falsy final
`pages` value raises the terminal failure, giving `none` here. -/
def acquireLoop : List (Str × StratOutcome) → Option (Str × List Page)
  | [] => none
  | (_, .raises) :: rest => acquireLoop rest
  | (_, .returns none) :: rest => acquireLoop rest
  | (name, .returns (some ps)) :: rest =>
    if 0 < ps.length then some (name, ps) else acquireLoop rest

/-- A strategy entry the loop treats as a failure: it raises, returns
None, or returns an empty list. -/
def stratFails (so : Str × StratOutcome) : Prop :=
  so.snd = .raises ∨ so.snd = .returns none ∨ so.snd = .returns (some [])

instance (so : Str × StratOutcome) : Decidable (stratFails so) := by
  unfold stratFails
  infer_instance

/-- Result dictionary of a successful `download` run (the modelled
fields). -/
structure RunResult where
  strategyUsed : Str
  pagesDownloaded : Nat
  assetsDownloaded : Nat
  outputContent : Str
deriving DecidableEq

/-- Observable side effects of a `download` run. -/
structure RunEffects where
  fileWritten : Bool
  cleanupRan : Bool
deriving DecidableEq

/-- Terminal failure message of `download` (source line 105). -/
def allFailedMsg : Str :=
  "All download strategies failed - could not extract any pages".data

/-- `GitBookMultiDownloader.download`: acquisition by the strategy loop,
consolidation, output write, and cleanup; on the failure path the
exception handler always runs cleanup (line 156, unconditionally) and no
output file has been written. On success, cleanup runs unless
`keep_temp` is set. -/
def download (keepTemp : Bool) (order : List (Str × StratOutcome))
    (baseUrl sectionPath now : Str) : Except Str RunResult × RunEffects :=
  match acquireLoop order with
  | none => (.error allFailedMsg, ⟨false, true⟩)
  | some (name, ps) =>
    let finalContent := consolidatePages ps baseUrl sectionPath now
    (.ok ⟨name, ps.length, 0, finalContent⟩, ⟨true, !keepTemp⟩)

/-!
Shared helper lemmas.
-/

/-- A prefix of failing strategies is skipped by the acquisition loop. -/
theorem acquireLoop_append_fails (pre rest : List (Str × StratOutcome))
    (h : ∀ so ∈ pre, stratFails so) :
    acquireLoop (pre ++ rest) = acquireLoop rest := by
  induction pre with
  | nil => rfl
  | cons so tail ih =>
    have hso : stratFails so := h so (by simp)
    have htail : ∀ x ∈ tail, stratFails x := fun x hx => h x (by simp [hx])
    obtain ⟨name, outcome⟩ := so
    rcases hso with hr | hn | he
    · cases hr
      simpa [acquireLoop] using ih htail
    · cases hn
      simpa [acquireLoop] using ih htail
    · cases he
      simpa [acquireLoop] using ih htail

/-- When every strategy fails, the acquisition loop yields nothing. -/
theorem acquireLoop_all_fail (order : List (Str × StratOutcome))
    (h : ∀ so ∈ order, stratFails so) :
    acquireLoop order = none := by
  have := acquireLoop_append_fails order [] h
  simpa using this

/-!
Claim theorems.
-/

/-- C10: invoked with an empty page list, the Consolidator does not fail
and returns the fixed fallback document instead of a header-plus-sections
document. -/
theorem consolidate_empty_fallback (baseUrl sectionPath now : Str) :
    consolidatePages [] baseUrl sectionPath now =
      "# No Content Found\n\nNo pages were successfully downloaded.".data := by
  rfl

/-- C1: for every strategy order, the orchestrator accepts the page list
of the first strategy whose extract_pages yields a non-empty list —
strategies that raise or return an empty or None result are non-fatal
failures that advance the loop — and on success the recorded
strategyUsed is that strategy's name and pagesDownloaded is the length of
the accepted list. -/
theorem fallback_first_success (pre post : List (Str × StratOutcome)) (name : Str)
    (ps : List Page) (keepTemp : Bool) (baseUrl sectionPath now : Str)
    (hpre : ∀ so ∈ pre, stratFails so) (hne : ps ≠ []) :
    acquireLoop (pre ++ (name, .returns (some ps)) :: post) = some (name, ps) ∧
    (download keepTemp (pre ++ (name, .returns (some ps)) :: post) baseUrl sectionPath now).1 =
      .ok ⟨name, ps.length, 0, consolidatePages ps baseUrl sectionPath now⟩ := by
  have hacq : acquireLoop (pre ++ (name, .returns (some ps)) :: post) = some (name, ps) := by
    rw [acquireLoop_append_fails pre _ hpre]
    have hlen : 0 < ps.length := List.length_pos.mpr hne
    simp [acquireLoop, hlen]
  refine ⟨hacq, ?_⟩
  unfold download
  rw [hacq]

/-- Sample page (a generic extracted page used by concrete witnesses). -/
def samplePageA : Page :=
  ⟨"Introduction".data, "https://example.com/intro".data, [], "# Intro\nHello".data, "scraping".data⟩

/-- Second sample page. -/
def samplePageB : Page :=
  ⟨"Chapter 12".data, "https://example.com/ch2".data, [], "## Body\ntext".data, "scraping".data⟩

/-- Third sample page. -/
def samplePageC : Page :=
  ⟨"Usage".data, "https://example.com/usage".data, [], "Some usage text".data, "scraping".data⟩

/-- Witness for C1, the spec scenario: strategy 1 raises, strategy 2
returns an empty list, strategy 3 returns 3 pages; the third strategy's
name and page count are recorded. -/
theorem fallback_first_success_witness :
    acquireLoop [("github".data, .raises), ("sitemap".data, .returns (some [])),
        ("scraping".data, .returns (some [samplePageA, samplePageB, samplePageC]))] =
      some ("scraping".data, [samplePageA, samplePageB, samplePageC]) ∧
    (download false [("github".data, .raises), ("sitemap".data, .returns (some [])),
        ("scraping".data, .returns (some [samplePageA, samplePageB, samplePageC]))]
        "https://example.com".data [] "2024-01-01 00:00:00 UTC".data).1 =
      .ok ⟨"scraping".data, 3, 0,
        consolidatePages [samplePageA, samplePageB, samplePageC]
          "https://example.com".data [] "2024-01-01 00:00:00 UTC".data⟩ :=
  fallback_first_success [("github".data, .raises), ("sitemap".data, .returns (some []))] []
    "scraping".data [samplePageA, samplePageB, samplePageC] false
    "https://example.com".data [] "2024-01-01 00:00:00 UTC".data
    (by decide) (by decide)

/-- C2: when every strategy raises or returns an empty or None page
list, the run terminates with the single terminal failure message, no
output file is written, and temp-directory cleanup still runs on this
failure path. -/
theorem download_all_fail (keepTemp : Bool) (order : List (Str × StratOutcome))
    (baseUrl sectionPath now : Str) (h : ∀ so ∈ order, stratFails so) :
    download keepTemp order baseUrl sectionPath now =
      (.error allFailedMsg, ⟨false, true⟩) := by
  unfold download
  rw [acquireLoop_all_fail order h]

/-- Witness for C2, the spec scenario: all three strategies return
empty or raise. -/
theorem download_all_fail_witness :
    download false [("github".data, .raises), ("sitemap".data, .returns none),
        ("scraping".data, .returns (some []))]
      "https://example.com".data [] "2024-01-01 00:00:00 UTC".data =
      (.error allFailedMsg, ⟨false, true⟩) :=
  download_all_fail false
    [("github".data, .raises), ("sitemap".data, .returns none),
      ("scraping".data, .returns (some []))]
    "https://example.com".data [] "2024-01-01 00:00:00 UTC".data (by decide)

/-- Counterexample for C3: the header embeds the ambient clock reading,
so two runs on the identical page list, root URL and section filter made
at different clock readings produce different bytes — consolidate is not
a function of the claim's arguments alone. -/
theorem consolidate_not_run_deterministic :
    consolidatePages [samplePageA] "https://example.com".data []
        "2024-01-01 00:00:00 UTC".data ≠
      consolidatePages [samplePageA] "https://example.com".data []
        "2024-01-02 00:00:00 UTC".data := by
  decide

/-- C3 (amended): the Consolidator output is a deterministic pure
function of the page list, root URL, section filter and the generation
timestamp read from the clock; two runs agreeing on all of these —
including the clock reading — yield byte-identical output. In the
embedding the clock reading is an explicit argument, so determinism in
these inputs is definitional; the substantive content of the correction
is the counterexample above. -/
theorem consolidate_deterministic (pages : List Page) (baseUrl sectionPath now1 now2 : Str)
    (h : now1 = now2) :
    consolidatePages pages baseUrl sectionPath now1 =
      consolidatePages pages baseUrl sectionPath now2 := by
  rw [h]

/-- Witness for the amended C3. -/
theorem consolidate_deterministic_witness :
    consolidatePages [samplePageA] "https://example.com".data []
        "2024-01-01 00:00:00 UTC".data =
      consolidatePages [samplePageA] "https://example.com".data []
        "2024-01-01 00:00:00 UTC".data :=
  consolidate_deterministic [samplePageA] "https://example.com".data []
    "2024-01-01 00:00:00 UTC".data "2024-01-01 00:00:00 UTC".data rfl

/-!
Claim C4: ordering of Introduction before Chapter 12.
-/

/-- Membership through stable insertion. -/
theorem mem_insertSorted (z x : Page) (l : List Page) :
    z ∈ insertSorted x l ↔ z = x ∨ z ∈ l := by
  induction l with
  | nil => simp [insertSorted]
  | cons y ys ih =>
    unfold insertSorted
    by_cases h : sortKeyPage y < sortKeyPage x
    · simp [h, ih]
      tauto
    · simp [h]

/-- Stable insertion preserves sortedness by the key. -/
theorem pairwise_insertSorted (x : Page) (l : List Page)
    (h : List.Pairwise (fun a b => sortKeyPage a ≤ sortKeyPage b) l) :
    List.Pairwise (fun a b => sortKeyPage a ≤ sortKeyPage b) (insertSorted x l) := by
  induction l with
  | nil => simp [insertSorted]
  | cons y ys ih =>
    rcases List.pairwise_cons.mp h with ⟨hy, hys⟩
    unfold insertSorted
    by_cases hk : sortKeyPage y < sortKeyPage x
    · rw [if_pos hk]
      refine List.pairwise_cons.mpr ⟨?_, ih hys⟩
      intro z hz
      rcases (mem_insertSorted z x ys).mp hz with rfl | hzys
      · exact le_of_lt hk
      · exact hy z hzys
    · rw [if_neg hk]
      refine List.pairwise_cons.mpr ⟨?_, h⟩
      intro z hz
      rcases List.mem_cons.mp hz with rfl | hzys
      · exact le_of_not_lt hk
      · exact le_trans (le_of_not_lt hk) (hy z hzys)

/-- The sorted page list is ascending in the sort key. -/
theorem pairwise_sortPages (l : List Page) :
    List.Pairwise (fun a b => sortKeyPage a ≤ sortKeyPage b) (sortPages l) := by
  induction l with
  | nil => simp [sortPages]
  | cons x xs ih => exact pairwise_insertSorted x (sortPages xs) ih

/-- Lower bound on the score of a page titled Introduction: the keyword
group yields 1000, the single-word title yields 99, and the URL-depth
term is nonnegative. -/
theorem sortScore_intro_ge (p : Page) (h : p.title = "Introduction".data) :
    1099 ≤ sortScore p := by
  unfold sortScore
  rw [h]
  have h1 : (introWords.any fun w => containsSub (pyLower "Introduction".data) w) = true := by
    decide
  have h3 : firstNumRun (pyLower "Introduction".data) = none := by decide
  have h4 : ((pySplitWS (pyLower "Introduction".data)).length : Int) = 1 := by decide
  simp only [h1, h3, h4, if_true]
  have h5 : (0 : Int) ≤ max 0 (50 - ((pySplitChar '/' (pyLower p.url)).length : Int)) :=
    le_max_left _ _
  have h2 : ((if overviewWords.any fun w => containsSub (pyLower "Introduction".data) w
      then (900 : Int) else 0)) = 0 := by decide
  rw [h2]
  have h6 : max (0 : Int) (100 - 1) = 99 := by decide
  rw [h6]
  omega

/-- Upper bound on the score of a page titled Chapter 12: no keyword
group fires, the numeric prefix yields 788, the two-word title yields
98, and the URL-depth term is at most 50. -/
theorem sortScore_ch12_le (p : Page) (h : p.title = "Chapter 12".data) :
    sortScore p ≤ 936 := by
  unfold sortScore
  rw [h]
  have h1 : (introWords.any fun w => containsSub (pyLower "Chapter 12".data) w) = false := by
    decide
  have h2 : (overviewWords.any fun w => containsSub (pyLower "Chapter 12".data) w) = false := by
    decide
  have h3 : firstNumRun (pyLower "Chapter 12".data) = some 12 := by decide
  have h4 : ((pySplitWS (pyLower "Chapter 12".data)).length : Int) = 2 := by decide
  simp only [h1, h2, h3, h4, if_false, Bool.false_eq_true]
  have h5 : max 0 (50 - ((pySplitChar '/' (pyLower p.url)).length : Int)) ≤ 50 := by
    apply max_le
    · norm_num
    · have : (0 : Int) ≤ ((pySplitChar '/' (pyLower p.url)).length : Int) := Int.ofNat_nonneg _
      omega
  have h6 : max (0 : Int) (100 - 2) = 98 := by decide
  rw [h6]
  omega

/-- C4: in the Consolidator's sorted output, every page titled
Introduction is placed before every page titled Chapter 12, for every
page set containing both and every input ordering: the Introduction
score is at least 1099 while the Chapter 12 score is at most 936, so the
descending stable sort can never put a Chapter 12 page first. -/
theorem intro_sorts_before_ch12 (pages : List Page) (i j : Nat)
    (hi : i < (sortPages pages).length) (hj : j < (sortPages pages).length)
    (hC : ((sortPages pages).get ⟨i, hi⟩).title = "Chapter 12".data)
    (hI : ((sortPages pages).get ⟨j, hj⟩).title = "Introduction".data) :
    j < i := by
  rcases lt_trichotomy i j with hlt | heq | hgt
  · exfalso
    have hp := pairwise_sortPages pages
    rw [List.pairwise_iff_get] at hp
    have hle := hp ⟨i, hi⟩ ⟨j, hj⟩ hlt
    have hIs := sortScore_intro_ge _ hI
    have hCs := sortScore_ch12_le _ hC
    unfold sortKeyPage at hle
    omega
  · exfalso
    subst heq
    rw [hC] at hI
    exact absurd hI (by decide)
  · exact hgt

/-- Witness for C4: on the concrete two-page set, the Chapter 12 page
lands at index 1 and the Introduction page at index 0 of the sorted
output, and the theorem yields 0 < 1. -/
theorem intro_sorts_before_ch12_witness :
    sortPages [samplePageB, samplePageA] = [samplePageA, samplePageB] ∧ (0 : Nat) < 1 :=
  ⟨by decide,
    intro_sorts_before_ch12 [samplePageB, samplePageA] 1 0
      (by decide) (by decide) (by decide) (by decide)⟩

/-!
Claim C5: the minimum-content-length filter of the fetch pipeline.
-/

/-- C5: a fetched page contributes a Page to the pipeline result only
when its extracted content, after stripping, is strictly longer than 50
characters; shorter pages are never in the result. -/
theorem pipeline_min_content_length (links : List (NavLink × FetchOutcome)) (p : Page)
    (hp : p ∈ downloadPages links) :
    50 < (pyStrip p.content).length := by
  unfold downloadPages at hp
  rw [List.mem_filterMap] at hp
  obtain ⟨⟨link, outcome⟩, _, heq⟩ := hp
  cases outcome with
  | fail => simp [pageOfFetch] at heq
  | ok doc =>
    unfold pageOfFetch at heq
    dsimp only at heq
    by_cases hcond : (extractMainContent doc ≠ [] &&
        decide (50 < (pyStrip (extractMainContent doc)).length)) = true
    · rw [if_pos hcond] at heq
      rw [Bool.and_eq_true] at hcond
      obtain ⟨_, hlen⟩ := hcond
      have hpe : p = ⟨link.title, link.url, [], extractMainContent doc, "scraping".data⟩ :=
        (Option.some.injEq _ _).mp heq |>.symm
      rw [hpe]
      exact of_decide_eq_true hlen
    · rw [if_neg hcond] at heq
      exact absurd heq (by simp)

/-- Parsed document used by the C5 witness: a body holding one paragraph
of more than 50 characters. -/
def longBodyDoc : List Node :=
  [ .elem "body".data []
      [ .elem "p".data []
          [.text "This paragraph has well over fifty characters of meaningful content.".data]]]

/-- Witness for C5: the page extracted from the long paragraph document
is in the pipeline result and its stripped content exceeds 50
characters. -/
theorem pipeline_min_content_length_witness :
    50 < (pyStrip (Page.mk "Long".data "https://example.com/long".data []
        (extractMainContent longBodyDoc) "scraping".data).content).length :=
  pipeline_min_content_length
    [(⟨"https://example.com/long".data, "Long".data⟩, .ok longBodyDoc)]
    ⟨"Long".data, "https://example.com/long".data, [],
      extractMainContent longBodyDoc, "scraping".data⟩
    (by decide)

/-!
Claim C8: the Content Extractor falls back to the full remaining text.
-/

/-- The content-selector loop finds nothing when no selector matches. -/
theorem firstContentMatch_none (soup : List Node) (sels : List CSel)
    (h : ∀ sel ∈ sels, selectFirst sel soup = none) :
    firstContentMatch soup sels = none := by
  induction sels with
  | nil => rfl
  | cons sel rest ih =>
    unfold firstContentMatch
    rw [h sel (by simp)]
    exact ih fun s hs => h s (by simp [hs])

/-- C8: on markup where, after boilerplate removal, no main-content
selector matches and there is no body element, the extractor returns the
full remaining document text (and, being a total function, does not
raise). -/
theorem extract_falls_back_to_text (doc : List Node)
    (h1 : ∀ sel ∈ contentSelectors, selectFirst sel (removeUnwanted doc) = none)
    (h2 : findBody (removeUnwanted doc) = none) :
    extractMainContent doc = getTextNs (removeUnwanted doc) := by
  unfold extractMainContent
  dsimp only
  rw [firstContentMatch_none _ _ h1, h2]

/-- Markup used by the C8 witness: text and a plain div, no content
container and no body. -/
def noBodyDoc : List Node :=
  [.text "hello ".data, .elem "div".data [] [.text "world".data]]

/-- Witness for C8: on the body-less markup the extractor returns the
concatenated document text. -/
theorem extract_falls_back_to_text_witness :
    extractMainContent noBodyDoc = getTextNs (removeUnwanted noBodyDoc) :=
  extract_falls_back_to_text noBodyDoc
    (by intro sel hs; fin_cases hs <;> rfl)
    rfl

/-!
Claim C6: the early-exit threshold of the selector cascade.
-/

/-- Modelled from the spec claim, for comparison with the source loop: a
cascade that advances until a single selector alone yields more than 5
retained links, counts from earlier selectors not contributing to the
threshold. -/
def claimSelectorCascade (retained : CSel → List NavLink) : List CSel → List NavLink
  | [] => []
  | sel :: rest =>
    let r := retained sel
    if 5 < r.length then r else r ++ claimSelectorCascade retained rest

/-- Navigation discovery as the spec claim describes the early exit. -/
def claimDiscoverNavigation (doc : List Node) (pageUrl : Str) : List NavLink :=
  dedupeLinks []
    (claimSelectorCascade (retainedLinks doc pageUrl (pyNetloc pageUrl)) navSelectors)

/-- Cumulative-count characterisation of the cascade: the links retained
by the shortest selector prefix whose running total exceeds 5 (all
selectors when the total never does), threaded by the running count. -/
def cumulCascade (retained : CSel → List NavLink) (n : Nat) : List CSel → List NavLink
  | [] => []
  | sel :: rest =>
    let r := retained sel
    if 5 < n + r.length then r else r ++ cumulCascade retained (n + r.length) rest

/-- The source loop equals the cumulative-count characterisation. -/
theorem discoverLoop_eq_cumul (doc : List Node) (pageUrl baseDomain : Str)
    (sels : List CSel) (acc : List NavLink) :
    discoverLoop doc pageUrl baseDomain sels acc =
      acc ++ cumulCascade (retainedLinks doc pageUrl baseDomain) acc.length sels := by
  induction sels generalizing acc with
  | nil => simp [discoverLoop, cumulCascade]
  | cons sel rest ih =>
    unfold discoverLoop cumulCascade
    by_cases h : 5 < (acc ++ retainedLinks doc pageUrl baseDomain sel).length
    · rw [if_pos h, if_pos (by simpa [List.length_append] using h)]
    · rw [if_neg h, if_neg (by simpa [List.length_append] using h), ih]
      simp [List.length_append]

/-- C6 (amended): the cascade's early exit is driven by the cumulative
retained-link count across the selectors processed so far — it stops as
soon as the links accumulated over all selectors up to the current one
exceed 5, so counts from earlier selectors do contribute to the
threshold. Discovery equals deduplication of the cumulative cascade. -/
theorem discover_cumulative_early_exit (doc : List Node) (pageUrl : Str) :
    discoverNavigation doc pageUrl =
      dedupeLinks []
        (cumulCascade (retainedLinks doc pageUrl (pyNetloc pageUrl)) 0 navSelectors) := by
  unfold discoverNavigation
  rw [discoverLoop_eq_cumul]
  rfl

/-- Anchor element helper for the C6 counterexample document. -/
def mkAnchor (path text : Str) : Node :=
  .elem "a".data [("href".data, path)] [.text text]

/-- Counterexample document for C6: the sidebar container holds 3 valid
links, the navigation container 3 more, and a nav element 7 more. -/
def c6doc : List Node :=
  [ .elem "div".data [("data-testid".data, "sidebar".data)]
      [ mkAnchor "https://example.com/s1".data "S1".data,
        mkAnchor "https://example.com/s2".data "S2".data,
        mkAnchor "https://example.com/s3".data "S3".data ],
    .elem "div".data [("data-testid".data, "navigation".data)]
      [ mkAnchor "https://example.com/n1".data "N1".data,
        mkAnchor "https://example.com/n2".data "N2".data,
        mkAnchor "https://example.com/n3".data "N3".data ],
    .elem "nav".data []
      [ mkAnchor "https://example.com/v1".data "V1".data,
        mkAnchor "https://example.com/v2".data "V2".data,
        mkAnchor "https://example.com/v3".data "V3".data,
        mkAnchor "https://example.com/v4".data "V4".data,
        mkAnchor "https://example.com/v5".data "V5".data,
        mkAnchor "https://example.com/v6".data "V6".data,
        mkAnchor "https://example.com/v7".data "V7".data ] ]

/-- Counterexample for C6: on `c6doc` the first selector alone retains 3
links and the second selector alone retains 3 links — neither exceeds 5 —
yet the source cascade stops after the second selector with the 6
accumulated links, while the claim's alone-count cascade would continue
to the nav selector and return 13; the outputs differ. -/
theorem discover_early_exit_counterexample :
    (retainedLinks c6doc "https://example.com".data "example.com".data
        (.attrSel "data-testid".data "sidebar".data)).length = 3 ∧
    (retainedLinks c6doc "https://example.com".data "example.com".data
        (.attrSel "data-testid".data "navigation".data)).length = 3 ∧
    (discoverNavigation c6doc "https://example.com".data).length = 6 ∧
    (claimDiscoverNavigation c6doc "https://example.com".data).length = 13 ∧
    discoverNavigation c6doc "https://example.com".data ≠
      claimDiscoverNavigation c6doc "https://example.com".data := by
  refine ⟨by decide, by decide, by decide, by decide, by decide⟩

/-!
Claim C7: heading demotion in the Consolidator's per-page cleaning.
-/

/-- Splitting never yields an empty field list. -/
theorem pySplitChar_ne_nil (sep : Char) (s : Str) : pySplitChar sep s ≠ [] := by
  cases s with
  | nil => simp [pySplitChar]
  | cons c cs =>
    unfold pySplitChar
    by_cases hc : c = sep
    · simp [hc]
    · rw [if_neg hc]
      cases pySplitChar sep cs with
      | nil => simp
      | cons f fs => simp

/-- Fields produced by splitting do not contain the separator. -/
theorem pySplitChar_not_mem (sep : Char) (s : Str) :
    ∀ l ∈ pySplitChar sep s, sep ∉ l := by
  induction s with
  | nil =>
    intro l hl
    simp [pySplitChar] at hl
    simp [hl]
  | cons c cs ih =>
    intro l hl
    unfold pySplitChar at hl
    by_cases hc : c = sep
    · rw [if_pos hc] at hl
      rcases List.mem_cons.mp hl with rfl | hrest
      · simp
      · exact ih l hrest
    · rw [if_neg hc] at hl
      cases hrest : pySplitChar sep cs with
      | nil => exact absurd hrest (pySplitChar_ne_nil sep cs)
      | cons f fs =>
        rw [hrest] at hl
        rcases List.mem_cons.mp hl with rfl | hfs
        · intro hmem
          rcases List.mem_cons.mp hmem with rfl | hf
          · exact hc rfl
          · exact ih f (by simp [hrest]) hf
        · exact ih l (by simp [hrest, hfs])

/-- Splitting a separator-free string returns the one-field list. -/
theorem pySplitChar_sep_free (sep : Char) (s : Str) (h : sep ∉ s) :
    pySplitChar sep s = [s] := by
  induction s with
  | nil => rfl
  | cons c cs ih =>
    unfold pySplitChar
    have hc : ¬ c = sep := fun he => h (by simp [he])
    rw [if_neg hc, ih (fun hm => h (by simp [hm]))]

/-- Splitting a separator-free field followed by the separator and a
tail peels off the field. -/
theorem pySplitChar_field_append (sep : Char) (x t : Str) (hx : sep ∉ x) :
    pySplitChar sep (x ++ sep :: t) = x :: pySplitChar sep t := by
  induction x with
  | nil => simp [pySplitChar]
  | cons a as ih =>
    have ha : ¬ a = sep := fun he => hx (by simp [he])
    have has : sep ∉ as := fun hm => hx (by simp [hm])
    rw [List.cons_append]
    conv_lhs => rw [pySplitChar]
    rw [ih has, if_neg ha]

/-- Splitting after joining recovers the field list when the fields are
separator-free. -/
theorem pySplitChar_pyJoinChar (sep : Char) (ls : List Str)
    (h : ∀ l ∈ ls, sep ∉ l) (hne : ls ≠ []) :
    pySplitChar sep (pyJoinChar sep ls) = ls := by
  induction ls with
  | nil => exact absurd rfl hne
  | cons x rest ih =>
    cases rest with
    | nil => exact pySplitChar_sep_free sep x (h x (by simp))
    | cons y ys =>
      show pySplitChar sep (x ++ sep :: pyJoinChar sep (y :: ys)) = _
      rw [pySplitChar_field_append sep x _ (h x (by simp)),
        ih (fun l hl => h l (by simp [hl])) (by simp)]

/-- Lines after the leading-trim contain no newline character. -/
theorem trimmedLines_no_newline (content : Str) :
    ∀ l ∈ trimmedLines content, '\n' ∉ l := by
  intro l hl
  unfold trimmedLines at hl
  by_cases hsi : 0 < startIdxGo 0 0 (pySplitChar '\n' content)
  · rw [if_pos hsi] at hl
    exact pySplitChar_not_mem '\n' content l (List.drop_subset _ _ hl)
  · rw [if_neg hsi] at hl
    exact pySplitChar_not_mem '\n' content l hl

/-- C7 (amended): after trimming the leading lines, the demotion step of
the per-page cleaning prepends exactly one hash to every line of one to
five hashes followed by a whitespace character and leaves every other
line — including level-6 hash heading lines — unchanged: line i of the
rebuilt content is the demotion of line i of the trimmed content. -/
theorem clean_core_demotes (content : Str) (i : Nat)
    (hi : i < (trimmedLines content).length) :
    (pySplitChar '\n' (cleanCore content)).get? i =
      some (if matchHeading15 ((trimmedLines content).get ⟨i, hi⟩) then
          '#' :: (trimmedLines content).get ⟨i, hi⟩
        else (trimmedLines content).get ⟨i, hi⟩) := by
  unfold cleanCore
  rw [pySplitChar_pyJoinChar '\n' _ ?hfree ?hnil]
  case hfree =>
    intro l hl
    rcases List.mem_map.mp hl with ⟨l0, hl0, rfl⟩
    have h0 := trimmedLines_no_newline content l0 hl0
    unfold adjustLine
    by_cases hm : matchHeading15 l0
    · rw [if_pos hm]
      intro hmem
      rcases List.mem_cons.mp hmem with he | hin
      · exact absurd he.symm (by decide)
      · exact h0 hin
    · rw [if_neg hm]
      exact h0
  case hnil =>
    intro hmap
    rw [List.map_eq_nil_iff] at hmap
    rw [hmap] at hi
    exact absurd hi (by simp)
  rw [List.get?_map, List.get?_eq_get hi]
  rfl

/-- Witness for the amended C7: in content with a plain first line, the
level-2 heading line is demoted to level 3 in the rebuilt content. -/
theorem clean_core_demotes_witness :
    (pySplitChar '\n' (cleanCore "A\n## B".data)).get? 1 = some "### B".data := by
  rw [clean_core_demotes "A\n## B".data 1 (by decide)]
  decide

/-- Modelled from the spec claim, for comparison with the source: a
markdown heading line of any level, one to six hashes followed by a
space. -/
def specMarkdownHeading (line : Str) : Bool :=
  let n := (line.takeWhile (fun c => c = '#')).length
  1 ≤ n && n ≤ 6 && isPrefixL " ".data (line.drop n)

/-- Counterexample for C7: a level-6 heading line surviving the leading
trim is a markdown heading, yet `_clean_content` leaves it unchanged —
the regex covers only one to five hashes, so no hash is prepended and
the output is not the claim's demoted version. -/
theorem clean_content_level6_counterexample :
    specMarkdownHeading "###### Deep".data = true ∧
    "###### Deep".data ∈ trimmedLines "Hello\n\n###### Deep".data ∧
    cleanContent "Hello\n\n###### Deep".data = "Hello\n\n###### Deep".data ∧
    cleanContent "Hello\n\n###### Deep".data ≠ "Hello\n\n####### Deep".data := by
  refine ⟨by decide, by decide, by decide, by decide⟩

/-!
Claim C9: rendering of inline code elements.
-/

/-- The child iteration of the renderer distributes over appending. -/
theorem emitNodes_append (l r : List Node) :
    emitNodes (l ++ r) = emitNodes l ++ emitNodes r := by
  unfold emitNodes
  induction l with
  | nil => simp [emitElem.goChildren]
  | cons n rest ih =>
    cases n with
    | text s => simp [emitElem.goChildren, ih]
    | elem nm a c => simp [emitElem.goChildren, ih]

/-- C9 (amended): a code element reached by the renderer's catch-all
child iteration contributes exactly one output line of its own — its
stripped text wrapped in backticks — standing alone between the lines of
its left and right siblings, not placed inline in surrounding text. -/
theorem code_renders_as_own_line (l r : List Node) (attrs : List (Str × Str))
    (cs : List Node) :
    emitNodes (l ++ .elem "code".data attrs cs :: r) =
      emitNodes l ++ (btick :: pyStrip (getTextNs cs) ++ [btick]) :: emitNodes r := by
  rw [emitNodes_append]
  congr 1

/-- Counterexample for C9: in a catch-all container the code span is
emitted as a standalone line between its text siblings rather than
inline, and inside a paragraph element the code text is flattened by
get_text with no backticks at all. -/
theorem code_not_inline_counterexample :
    htmlToText (.elem "div".data [] [.text "before".data,
        .elem "code".data [] [.text "x".data], .text "after".data]) =
      ("before\n".data ++ btick :: 'x' :: btick :: "\nafter".data) ∧
    pySplitChar '\n' (htmlToText (.elem "div".data [] [.text "before".data,
        .elem "code".data [] [.text "x".data], .text "after".data])) =
      ["before".data, btick :: 'x' :: [btick], "after".data] ∧
    htmlToText (.elem "p".data [] [.text "see ".data,
        .elem "code".data [] [.text "x".data], .text " now".data]) = "see x now".data ∧
    ("see x now".data.contains btick) = false := by
  refine ⟨by decide, by decide, by decide, by decide⟩
